import Mathlib

/-
Verification of the Todoist MCP server (`todoist_mcp.py`).

Python strings are modeled as Lean `String` (a wrapped `List Char`), Python
`None`-able values as `Option`, and Python dict-based JSON request bodies as
ordered association lists `List (String × JsonVal)`.  Python truthiness of an
optional string is "present and non-empty"; input models are taken after
pydantic validation (so `str_strip_whitespace` has already stripped string
fields, and `TaskPriority` is one of the four enum members).
-/

namespace TodoistMCP

/-- Python's `sep.join(parts)`: empty for `[]`, the single element for `[x]`,
otherwise the elements interleaved with `sep`. -/
def pyJoin (sep : String) : List String → String
  | [] => ""
  | [x] => x
  | x :: xs => x ++ sep ++ pyJoin sep xs

/-- Python's slice `s[:n]` on a string. -/
def pyslice (s : String) (n : Nat) : String := ⟨s.data.take n⟩

/-- Python truthiness of an optional string: `None` and `""` are falsy. -/
def optTruthy : Option String → Bool
  | none => false
  | some s => s != ""

/-- `CHARACTER_LIMIT` constant from the source. -/
def CHARACTER_LIMIT : Nat := 25000

/-- The truncation notice appended by `_truncate_response`
(`f"\n\n---\n**Response truncated** (\x7bitem_count\x7d items). Use filters to narrow results."`). -/
def truncationNotice (item_count : Nat) : String :=
  "\n\n---\n**Response truncated** (" ++ toString item_count
    ++ " items). Use filters to narrow results."

/-- `_truncate_response(result, item_count)`: if the rendered string exceeds
`CHARACTER_LIMIT`, cut it at `CHARACTER_LIMIT - 200` characters and append the
truncation notice; otherwise return it unchanged. -/
def truncate_response (result : String) (item_count : Nat) : String :=
  if CHARACTER_LIMIT < result.length then
    pyslice result (CHARACTER_LIMIT - 200) ++ truncationNotice item_count
  else result

/-- The exceptions distinguished by `_handle_api_error`: an
`httpx.HTTPStatusError` carrying a response status code, an
`httpx.TimeoutException`, a `ValueError` carrying its message, and any other
exception carrying its type name and message. -/
inductive PyExn where
  | httpStatusError (status : Nat)
  | timeoutException
  | valueError (msg : String)
  | other (typeName : String) (msg : String)

/-- `_handle_api_error(e)`: the status-code table, then timeout, then
`ValueError`, then the generic fallback. -/
def handle_api_error : PyExn → String
  | .httpStatusError status =>
    if status = 400 then "Error: Invalid request. Check your parameters are correct."
    else if status = 401 then "Error: Invalid API token. Check TODOIST_API_TOKEN is correct."
    else if status = 403 then "Error: Permission denied. You may not have access to this resource."
    else if status = 404 then "Error: Resource not found. Check the ID is correct."
    else if status = 429 then "Error: Rate limit exceeded. Please wait before making more requests."
    else if 500 ≤ status then "Error: Todoist server error. Please try again later."
    else "Error: API request failed with status " ++ toString status
  | .timeoutException => "Error: Request timed out. Please try again."
  | .valueError msg => "Error: " ++ msg
  | .other typeName msg => "Error: " ++ typeName ++ ": " ++ msg

/-- Every tool body runs inside `try: ... except Exception as e: return
_handle_api_error(e)`: a raised exception becomes the formatted error string,
a normal return is passed through. -/
def toolWrap : Except PyExn String → String
  | .ok s => s
  | .error e => handle_api_error e

/-- The `ValueError` message raised by `_get_api_token` when the environment
variable is absent or empty. -/
def tokenErrorMessage : String :=
  "TODOIST_API_TOKEN environment variable not set. Get your token from: Todoist Settings → Integrations → Developer → API token"

/-- `_get_api_token()`: reads `TODOIST_API_TOKEN` from the environment
(`none` when unset) and raises `ValueError(tokenErrorMessage)` when the value
is missing or empty (`if not token`). -/
def get_api_token (env : Option String) : Except String String :=
  match env with
  | none => .error tokenErrorMessage
  | some t => if t = "" then .error tokenErrorMessage else .ok t

/-- A tool invocation under a given environment: `_make_api_request` first
calls `_get_api_token`, whose `ValueError` is caught by the tool's
`except Exception` and routed through `_handle_api_error`; with a token
present the tool proceeds (its eventual successful string is `onSuccess`). -/
def toolResultWithEnv (env : Option String) (onSuccess : String) : String :=
  match get_api_token env with
  | .error msg => handle_api_error (.valueError msg)
  | .ok _ => onSuccess

/-- The `due` sub-object of a task: the three fields read by `_format_due`,
each possibly absent.  `none` at the outer level stands for a falsy `due`
(Python `None` or the empty dict). -/
structure DueObj where
  date : Option String
  datetime : Option String
  string : Option String

/-- `_format_due(due)`. -/
def format_due : Option DueObj → String
  | none => "No due date"
  | some due =>
    let dateStr := due.date.getD ""
    if optTruthy due.datetime then due.datetime.getD ""
    else if optTruthy due.string then due.string.getD "" ++ " (" ++ dateStr ++ ")"
    else dateStr

/-- `_priority_label(priority)`: the display table with `str(priority)` as the
dict-lookup default. -/
def priority_label (priority : Int) : String :=
  if priority = 1 then "P4 (lowest)"
  else if priority = 2 then "P3"
  else if priority = 3 then "P2"
  else if priority = 4 then "P1 (highest)"
  else toString priority

/-- The `TaskPriority` enum (pydantic admits exactly the four members). -/
inductive TaskPriority where
  | P1
  | P2
  | P3
  | P4

/-- The integer value of a `TaskPriority` member. -/
def TaskPriority.value : TaskPriority → Nat
  | .P1 => 1
  | .P2 => 2
  | .P3 => 3
  | .P4 => 4

/-- JSON values appearing in outgoing request bodies. -/
inductive JsonVal where
  | str (s : String)
  | num (n : Nat)
  | arr (l : List String)
deriving DecidableEq

/-- `CreateTaskInput` after pydantic validation. -/
structure CreateTaskParams where
  content : String
  description : Option String
  project_id : Option String
  due_string : Option String
  due_date : Option String
  priority : Option TaskPriority
  labels : Option (List String)
  parent_id : Option String

/-- The request body built by `todoist_create_task`: `content` always, then
each optional field added under the source's conditions (`if params.x:`
truthiness checks, with `due_string` taking precedence over `due_date` via
`elif`; a `TaskPriority` member is always truthy). -/
def createTaskData (p : CreateTaskParams) : List (String × JsonVal) :=
  [("content", JsonVal.str p.content)]
  ++ (if optTruthy p.description then [("description", JsonVal.str (p.description.getD ""))] else [])
  ++ (if optTruthy p.project_id then [("project_id", JsonVal.str (p.project_id.getD ""))] else [])
  ++ (if optTruthy p.due_string then [("due_string", JsonVal.str (p.due_string.getD ""))]
      else if optTruthy p.due_date then [("due_date", JsonVal.str (p.due_date.getD ""))] else [])
  ++ (match p.priority with
      | some pr => [("priority", JsonVal.num pr.value)]
      | none => [])
  ++ (match p.labels with
      | some ls => if ls ≠ [] then [("labels", JsonVal.arr ls)] else []
      | none => [])
  ++ (if optTruthy p.parent_id then [("parent_id", JsonVal.str (p.parent_id.getD ""))] else [])

/-- `UpdateTaskInput` after pydantic validation. -/
structure UpdateTaskParams where
  task_id : String
  content : Option String
  description : Option String
  due_string : Option String
  due_date : Option String
  priority : Option TaskPriority
  labels : Option (List String)

/-- The request body built by `todoist_update_task`: `content`, `due_string` /
`due_date` (an `elif` pair) and `priority` are added under truthiness checks,
while `description` and `labels` are added whenever they `is not None`. -/
def updateTaskData (p : UpdateTaskParams) : List (String × JsonVal) :=
  (if optTruthy p.content then [("content", JsonVal.str (p.content.getD ""))] else [])
  ++ (match p.description with
      | some d => [("description", JsonVal.str d)]
      | none => [])
  ++ (if optTruthy p.due_string then [("due_string", JsonVal.str (p.due_string.getD ""))]
      else if optTruthy p.due_date then [("due_date", JsonVal.str (p.due_date.getD ""))] else [])
  ++ (match p.priority with
      | some pr => [("priority", JsonVal.num pr.value)]
      | none => [])
  ++ (match p.labels with
      | some ls => [("labels", JsonVal.arr ls)]
      | none => [])

/-- What a tool invocation does before rendering its reply: either return a
local message without any HTTP call, or issue one request. -/
inductive ToolAction where
  | localReply (msg : String)
  | request (method : String) (endpoint : String) (body : List (String × JsonVal))
deriving DecidableEq

/-- `todoist_update_task`: build the diff; if it is empty return the local
"nothing to update" message, otherwise `POST /tasks/{task_id}` with exactly
the built body. -/
def todoist_update_task (p : UpdateTaskParams) : ToolAction :=
  let data := updateTaskData p
  if data = [] then
    .localReply "Error: No fields to update. Provide at least one field to change."
  else
    .request "POST" ("tasks/" ++ p.task_id) data

/-- `ResponseFormat`. -/
inductive RespFormat where
  | markdown
  | json

/-- The `limit` field of `ListTasksInput`: pydantic accepts an integer iff
`ge=1` and `le=200` hold. -/
def listTasksLimitOk (n : Int) : Bool := 1 ≤ n && n ≤ 200

/-- The default of the `limit` field of `ListTasksInput`. -/
def listTasksLimitDefault : Int := 50

/-- A task as read from the Todoist API response dict: fields accessed by the
task views, each `Option` where the source uses `.get`. -/
structure Task where
  id : String
  content : String
  priority : Option Int
  due : Option DueObj
  labels : List String
  description : Option String
  project_id : Option String
  created_at : Option String
  parent_id : Option String

/-- The priority emoji chain in `todoist_list_tasks`
(`t.get("priority") == 4` and so on). -/
def priorityEmoji (priority : Option Int) : String :=
  if priority = some 4 then "🔴"
  else if priority = some 3 then "🟠"
  else if priority = some 2 then "🔵"
  else ""

/-- `", ".join(t.get("labels", [])) or "none"`. -/
def labelsDisplay (labels : List String) : String :=
  let joined := pyJoin ", " labels
  if joined = "" then "none" else joined

/-- The list-view description elision in `todoist_list_tasks`:
`t["description"][:200] + "..." if len(...) > 200 else t["description"]`. -/
def elideDescription (d : String) : String :=
  if 200 < d.length then pyslice d 200 ++ "..." else d

/-- The markdown lines `todoist_list_tasks` appends for one task. -/
def taskLines (t : Task) : List String :=
  ["### " ++ priorityEmoji t.priority ++ " " ++ t.content,
   "- **ID**: `" ++ t.id ++ "`",
   "- **Due**: " ++ format_due t.due,
   "- **Priority**: " ++ priority_label (t.priority.getD 1),
   "- **Labels**: " ++ labelsDisplay t.labels]
  ++ (if optTruthy t.description then
        ["- **Description**: " ++ elideDescription (t.description.getD "")]
      else [])
  ++ [""]

/-- The markdown body of `todoist_list_tasks` over the (already sliced)
task list. -/
def listTasksMarkdown (tasks : List Task) : String :=
  pyJoin "\n"
    (["# Todoist Tasks", "*Showing " ++ toString tasks.length ++ " tasks*", ""]
      ++ (tasks.map taskLines).flatten)

/-- `todoist_list_tasks` after a successful API call returning `tasks`:
empty results short-circuit, otherwise the list is sliced to `limit`
(`tasks = tasks[:params.limit]`) before either branch renders it.
`dumps` stands for `json.dumps(·, indent=2)`. -/
def todoist_list_tasks (dumps : List Task → String) (tasks : List Task)
    (limit : Nat) (fmt : RespFormat) : String :=
  if tasks.isEmpty then "No tasks found matching your criteria."
  else
    let sliced := tasks.take limit
    match fmt with
    | .json => dumps sliced
    | .markdown => truncate_response (listTasksMarkdown sliced) sliced.length

/-- The markdown lines of `todoist_get_task` for a task. -/
def getTaskLines (t : Task) : List String :=
  ["# " ++ t.content,
   "",
   "- **ID**: `" ++ t.id ++ "`",
   "- **Project**: `" ++ t.project_id.getD "Inbox" ++ "`",
   "- **Due**: " ++ format_due t.due,
   "- **Priority**: " ++ priority_label (t.priority.getD 1),
   "- **Labels**: " ++ labelsDisplay t.labels,
   "- **Created**: " ++ t.created_at.getD "unknown"]
  ++ (if optTruthy t.description then ["", "## Description", t.description.getD ""] else [])
  ++ (if optTruthy t.parent_id then ["- **Parent Task**: `" ++ t.parent_id.getD "" ++ "`"] else [])

/-- The markdown output of `todoist_get_task`. -/
def todoist_get_task_markdown (t : Task) : String :=
  pyJoin "\n" (getTaskLines t)

/-- A label as read from the API response dict. -/
structure Label where
  id : String
  name : String
  color : Option String
  is_favorite : Bool

/-- The markdown line `todoist_list_labels` appends for one label. -/
def labelLine (l : Label) : String :=
  "- **" ++ l.name ++ "**" ++ (if l.is_favorite then " ⭐" else "")
    ++ " (ID: `" ++ l.id ++ "`, color: " ++ l.color.getD "default" ++ ")"

/-- The markdown body of `todoist_list_labels`. -/
def listLabelsMarkdown (labels : List Label) : String :=
  pyJoin "\n" (["# Todoist Labels", ""] ++ labels.map labelLine)

/-- `todoist_list_labels` after a successful API call: note the markdown
branch returns the joined lines directly, without `_truncate_response`. -/
def todoist_list_labels (dumps : List Label → String) (labels : List Label)
    (fmt : RespFormat) : String :=
  if labels.isEmpty then "No labels found. Create labels to organize your tasks."
  else
    match fmt with
    | .json => dumps labels
    | .markdown => listLabelsMarkdown labels

/-- A project as read from the API response dict. -/
structure Project where
  id : String
  name : String
  is_favorite : Bool
  parent_id : Option String
  comment_count : Option Nat

/-- The markdown lines `todoist_list_projects` appends for one project. -/
def projectLines (p : Project) : List String :=
  let favorite := if p.is_favorite then " ⭐" else ""
  let indent := if optTruthy p.parent_id then "  " else ""
  [indent ++ "- **" ++ p.name ++ "**" ++ favorite ++ " (ID: `" ++ p.id ++ "`)"]
  ++ (match p.comment_count with
      | some c => if c ≠ 0 then [indent ++ "  - " ++ toString c ++ " comments"] else []
      | none => [])

/-- The markdown body of `todoist_list_projects`. -/
def listProjectsMarkdown (projects : List Project) : String :=
  pyJoin "\n" (["# Todoist Projects", ""] ++ (projects.map projectLines).flatten)

/-- `todoist_list_projects` after a successful API call: the markdown branch
goes through `_truncate_response` with `len(projects)` as the item count. -/
def todoist_list_projects (dumps : List Project → String) (projects : List Project)
    (fmt : RespFormat) : String :=
  if projects.isEmpty then "No projects found."
  else
    match fmt with
    | .json => dumps projects
    | .markdown => truncate_response (listProjectsMarkdown projects) projects.length

/-- Fixture: a 25000-character label name used to exercise the character
limit. -/
def bigLabelName : String := ⟨List.replicate 25000 'a'⟩

/-- Fixture: a 25001-character rendered string used to exercise the character
limit. -/
def overLimitString : String := ⟨List.replicate 25001 'b'⟩

/-! ## Helper lemmas -/

theorem strlen_data (s : String) : s.length = s.data.length := by
  cases s
  rfl

theorem pyslice_length (s : String) (n : Nat) :
    (pyslice s n).length = min n s.length := by
  cases s with
  | mk l =>
    show (l.take n).length = min n (String.mk l).length
    rw [strlen_data]
    exact List.length_take n l

theorem optTruthy_isSome {o : Option String} (h : optTruthy o = true) : o.isSome := by
  cases o with
  | none => simp [optTruthy] at h
  | some s => rfl

theorem optTruthy_some {s : String} (h : s ≠ "") : optTruthy (some s) = true := by
  simp [optTruthy, h]

theorem prefix_data_append {a b : String} (h : a.data <+: b.data) (c : String) :
    a.data <+: (b ++ c).data := by
  rw [String.data_append]
  exact h.trans (List.prefix_append b.data c.data)

theorem pyJoin_contains_of_mem (sep x : String) (l : List String) (h : x ∈ l) :
    x.data <:+: (pyJoin sep l).data := by
  induction l with
  | nil => simp at h
  | cons a as ih =>
    cases as with
    | nil =>
      rw [List.mem_singleton] at h
      subst h
      exact List.infix_rfl
    | cons b bs =>
      rcases List.mem_cons.mp h with rfl | h'
      · show x.data <:+: (x ++ sep ++ pyJoin sep (b :: bs)).data
        rw [String.data_append, String.data_append, List.append_assoc]
        exact List.IsPrefix.isInfix (List.prefix_append x.data _)
      · have hx := ih h'
        show x.data <:+: (a ++ sep ++ pyJoin sep (b :: bs)).data
        rw [String.data_append]
        exact hx.trans (List.IsSuffix.isInfix (List.suffix_append _ _))

/-! ## Claims -/

/-- C6: the priority display mapping is exact — remote priority 1 renders
"P4 (lowest)", 2 renders "P3", 3 renders "P2", 4 renders "P1 (highest)" —
and both markdown views that show a priority (the list-tasks view and the
get-task view) render their priority line via this mapping (with dict default
1 for an absent priority). -/
theorem C6_priority_mapping :
    priority_label 1 = "P4 (lowest)" ∧
    priority_label 2 = "P3" ∧
    priority_label 3 = "P2" ∧
    priority_label 4 = "P1 (highest)" ∧
    (∀ t : Task, ("- **Priority**: " ++ priority_label (t.priority.getD 1)) ∈ taskLines t) ∧
    (∀ t : Task, ("- **Priority**: " ++ priority_label (t.priority.getD 1)) ∈ getTaskLines t) := by
  refine ⟨rfl, rfl, rfl, rfl, ?_, ?_⟩
  · intro t
    simp [taskLines]
  · intro t
    simp [getTaskLines]

/-- C4 counterexample: a due object whose `string` field is present but empty
(with `datetime` absent) renders the bare `date` value, not the claimed
`string` + `(date)` combination. -/
theorem C4_counterexample :
    format_due (some ⟨some "2024-01-01", none, some ""⟩) = "2024-01-01" ∧
    format_due (some ⟨some "2024-01-01", none, some ""⟩) ≠ " (2024-01-01)" := by
  constructor
  · rfl
  · decide

/-- C4 (amended): `_format_due` picks `datetime` when present and non-empty;
otherwise `string` when present and non-empty (rendered as the string followed
by the `date` value, defaulting to empty, in parentheses); otherwise the
`date` value (defaulting to empty); a falsy due object renders exactly
"No due date". -/
theorem C4_due_rendering (due : DueObj) :
    format_due none = "No due date" ∧
    (∀ dt, due.datetime = some dt → dt ≠ "" → format_due (some due) = dt) ∧
    (optTruthy due.datetime = false → ∀ st, due.string = some st → st ≠ "" →
      format_due (some due) = st ++ " (" ++ due.date.getD "" ++ ")") ∧
    (optTruthy due.datetime = false → optTruthy due.string = false →
      format_due (some due) = due.date.getD "") := by
  refine ⟨rfl, ?_, ?_, ?_⟩
  · intro dt hdt hne
    simp [format_due, hdt, optTruthy_some hne]
  · intro hdt st hst hne
    simp [format_due, hdt, hst, optTruthy_some hne]
  · intro hdt hst
    simp [format_due, hdt, hst]

/-- C4 witness: the amended theorem applied to a concrete due object with a
non-empty `string` and no `datetime`. -/
theorem C4_due_rendering_witness :
    format_due (some ⟨some "2024-01-01", none, some "tomorrow"⟩)
      = "tomorrow" ++ " (" ++ "2024-01-01" ++ ")" :=
  (C4_due_rendering ⟨some "2024-01-01", none, some "tomorrow"⟩).2.2.1
    (by rfl) "tomorrow" rfl (by decide)

/-- C2: `_handle_api_error` realises the fixed category table — 400/401/403/
404/429 each map to their fixed message, 5xx to the server-error message,
any other status to the generic status-N message, timeouts to the generic
timeout message, `ValueError` to its message verbatim prefixed, and any other
exception to a fallback naming its type — every produced string starts with
"Error:", and the tool-level `except Exception` turns every raised exception
into such a string instead of propagating it. -/
theorem C2_error_mapping :
    (∀ e : PyExn, "Error:".data <+: (handle_api_error e).data) ∧
    (∀ e : PyExn, toolWrap (Except.error e) = handle_api_error e) ∧
    handle_api_error (.httpStatusError 400)
      = "Error: Invalid request. Check your parameters are correct." ∧
    handle_api_error (.httpStatusError 401)
      = "Error: Invalid API token. Check TODOIST_API_TOKEN is correct." ∧
    handle_api_error (.httpStatusError 403)
      = "Error: Permission denied. You may not have access to this resource." ∧
    handle_api_error (.httpStatusError 404)
      = "Error: Resource not found. Check the ID is correct." ∧
    handle_api_error (.httpStatusError 429)
      = "Error: Rate limit exceeded. Please wait before making more requests." ∧
    (∀ status, 500 ≤ status →
      handle_api_error (.httpStatusError status)
        = "Error: Todoist server error. Please try again later.") ∧
    (∀ status, status ∉ ([400, 401, 403, 404, 429] : List Nat) → status < 500 →
      handle_api_error (.httpStatusError status)
        = "Error: API request failed with status " ++ toString status) ∧
    handle_api_error .timeoutException = "Error: Request timed out. Please try again." ∧
    (∀ msg, handle_api_error (.valueError msg) = "Error: " ++ msg) ∧
    (∀ ty msg, handle_api_error (.other ty msg) = "Error: " ++ ty ++ ": " ++ msg) := by
  refine ⟨?_, fun _ => rfl, rfl, rfl, rfl, rfl, rfl, ?_, ?_, rfl, ?_, ?_⟩
  · intro e
    cases e with
    | httpStatusError status =>
      show "Error:".data <+: (handle_api_error (.httpStatusError status)).data
      simp only [handle_api_error]
      split_ifs <;> first
      | decide
      | exact prefix_data_append (by decide) (toString status)
    | timeoutException => decide
    | valueError msg => exact prefix_data_append (by decide) msg
    | other ty msg =>
      exact prefix_data_append (prefix_data_append (prefix_data_append (by decide) ty) ": ") msg
  · intro status h
    have h1 : status ≠ 400 := by omega
    have h2 : status ≠ 401 := by omega
    have h3 : status ≠ 403 := by omega
    have h4 : status ≠ 404 := by omega
    have h5 : status ≠ 429 := by omega
    simp [handle_api_error, h1, h2, h3, h4, h5, h]
  · intro status hmem hlt
    simp only [List.mem_cons, List.not_mem_nil, or_false, not_or] at hmem
    obtain ⟨h1, h2, h3, h4, h5⟩ := hmem
    have h6 : ¬ (500 ≤ status) := by omega
    simp [handle_api_error, h1, h2, h3, h4, h5, h6]
  · intro msg
    rfl
  · intro ty msg
    rfl

/-- C2 witness: the generic status branch applied at the concrete status 418. -/
theorem C2_error_mapping_witness :
    handle_api_error (.httpStatusError 418)
      = "Error: API request failed with status " ++ toString 418 :=
  C2_error_mapping.2.2.2.2.2.2.2.2.1 418 (by decide) (by decide)

/-- C5: with the credential environment variable absent or empty, a tool call
raises `ValueError(tokenErrorMessage)` inside `_get_api_token`, which the
tool's handler turns — through the same `_handle_api_error` path as remote
API errors — into one string naming the variable and where to obtain the
token; no exception reaches the caller. -/
theorem C5_missing_token (env : Option String) (onSuccess : String)
    (h : env = none ∨ env = some "") :
    toolResultWithEnv env onSuccess = handle_api_error (.valueError tokenErrorMessage) ∧
    toolResultWithEnv env onSuccess = "Error: " ++ tokenErrorMessage ∧
    "TODOIST_API_TOKEN".data <:+: (toolResultWithEnv env onSuccess).data ∧
    "Todoist Settings → Integrations → Developer → API token".data
      <:+: (toolResultWithEnv env onSuccess).data := by
  have he : toolResultWithEnv env onSuccess = "Error: " ++ tokenErrorMessage := by
    rcases h with rfl | rfl <;> rfl
  refine ⟨by rcases h with rfl | rfl <;> rfl, he, ?_, ?_⟩
  · rw [he]
    exact ⟨"Error: ".data,
      " environment variable not set. Get your token from: Todoist Settings → Integrations → Developer → API token".data,
      by decide⟩
  · rw [he]
    exact ⟨"Error: TODOIST_API_TOKEN environment variable not set. Get your token from: ".data,
      [], by decide⟩

/-- C5 witness: the theorem applied to the absent-variable environment. -/
theorem C5_missing_token_witness :
    toolResultWithEnv none "unused" = "Error: " ++ tokenErrorMessage :=
  (C5_missing_token none "unused" (Or.inl rfl)).2.1

/-- Key membership in the `todoist_update_task` request body, characterized by
the source's inclusion conditions. -/
theorem updateTaskData_keys (p : UpdateTaskParams) (k : String) :
    k ∈ (updateTaskData p).map Prod.fst ↔
      (k = "content" ∧ optTruthy p.content = true) ∨
      (k = "description" ∧ p.description.isSome = true) ∨
      (k = "due_string" ∧ optTruthy p.due_string = true) ∨
      (k = "due_date" ∧ optTruthy p.due_string = false ∧ optTruthy p.due_date = true) ∨
      (k = "priority" ∧ p.priority.isSome = true) ∨
      (k = "labels" ∧ p.labels.isSome = true) := by
  rcases p with ⟨tid, c, d, ds, dd, pr, ls⟩
  simp only [updateTaskData]
  cases hc : optTruthy c <;> cases hds : optTruthy ds <;> cases hdd : optTruthy dd <;>
    cases d <;> cases pr <;> cases ls <;>
      simp [hc, hds, hdd]

/-- Key membership in the `todoist_create_task` request body, characterized by
the source's inclusion conditions. -/
theorem createTaskData_keys (p : CreateTaskParams) (k : String) :
    k ∈ (createTaskData p).map Prod.fst ↔
      (k = "content") ∨
      (k = "description" ∧ optTruthy p.description = true) ∨
      (k = "project_id" ∧ optTruthy p.project_id = true) ∨
      (k = "due_string" ∧ optTruthy p.due_string = true) ∨
      (k = "due_date" ∧ optTruthy p.due_string = false ∧ optTruthy p.due_date = true) ∨
      (k = "priority" ∧ p.priority.isSome = true) ∨
      (k = "labels" ∧ ∃ l0, p.labels = some l0 ∧ l0 ≠ []) ∨
      (k = "parent_id" ∧ optTruthy p.parent_id = true) := by
  rcases p with ⟨c, d, pj, ds, dd, pr, ls, par⟩
  simp only [createTaskData]
  cases hd : optTruthy d <;> cases hpj : optTruthy pj <;> cases hds : optTruthy ds <;>
    cases hdd : optTruthy dd <;> cases hpar : optTruthy par <;> cases pr <;>
      rcases ls with _ | (_ | ⟨a, l⟩) <;>
        simp [hd, hpj, hds, hdd, hpar]

/-- C3: a `todoist_update_task` invocation whose built diff is empty returns
the local "nothing to update" message without issuing any HTTP request; with a
non-empty diff exactly the built body is POSTed to `tasks/{id}`, and every key
of that body corresponds to a supplied (non-`None`) optional field. -/
theorem C3_update_empty_diff (p : UpdateTaskParams) :
    (updateTaskData p = [] →
      todoist_update_task p
        = .localReply "Error: No fields to update. Provide at least one field to change.") ∧
    (updateTaskData p ≠ [] →
      todoist_update_task p = .request "POST" ("tasks/" ++ p.task_id) (updateTaskData p)) ∧
    (∀ k ∈ (updateTaskData p).map Prod.fst,
      (k = "content" ∧ p.content.isSome = true) ∨
      (k = "description" ∧ p.description.isSome = true) ∨
      (k = "due_string" ∧ p.due_string.isSome = true) ∨
      (k = "due_date" ∧ p.due_date.isSome = true) ∨
      (k = "priority" ∧ p.priority.isSome = true) ∨
      (k = "labels" ∧ p.labels.isSome = true)) := by
  refine ⟨?_, ?_, ?_⟩
  · intro h
    simp [todoist_update_task, h]
  · intro h
    simp [todoist_update_task, h]
  · intro k hk
    rw [updateTaskData_keys] at hk
    rcases hk with ⟨rfl, h⟩ | ⟨rfl, h⟩ | ⟨rfl, h⟩ | ⟨rfl, h1, h2⟩ | ⟨rfl, h⟩ | ⟨rfl, h⟩
    · exact Or.inl ⟨rfl, optTruthy_isSome h⟩
    · exact Or.inr (Or.inl ⟨rfl, h⟩)
    · exact Or.inr (Or.inr (Or.inl ⟨rfl, optTruthy_isSome h⟩))
    · exact Or.inr (Or.inr (Or.inr (Or.inl ⟨rfl, optTruthy_isSome h2⟩)))
    · exact Or.inr (Or.inr (Or.inr (Or.inr (Or.inl ⟨rfl, h⟩))))
    · exact Or.inr (Or.inr (Or.inr (Or.inr (Or.inr ⟨rfl, h⟩))))

/-- C3 witness: updating only the content issues the POST with exactly that
field, and an all-`None` invocation returns the local message. -/
theorem C3_update_empty_diff_witness :
    todoist_update_task ⟨"7", none, none, none, none, none, none⟩
      = .localReply "Error: No fields to update. Provide at least one field to change." ∧
    todoist_update_task ⟨"7", some "new title", none, none, none, none, none⟩
      = .request "POST" ("tasks/" ++ "7")
          (updateTaskData ⟨"7", some "new title", none, none, none, none, none⟩) :=
  ⟨(C3_update_empty_diff ⟨"7", none, none, none, none, none, none⟩).1 (by decide),
   (C3_update_empty_diff ⟨"7", some "new title", none, none, none, none, none⟩).2.1 (by decide)⟩

/-- C9: in both `todoist_create_task` and `todoist_update_task`, a truthy
`due_string` suppresses `due_date` (the `elif`): with `due_string` non-empty
the body carries `due_string` and never `due_date`, and `due_date` appears
only when `due_string` is absent or empty while `due_date` itself is truthy. -/
theorem C9_due_precedence (cp : CreateTaskParams) (up : UpdateTaskParams) :
    (optTruthy cp.due_string = true →
      "due_string" ∈ (createTaskData cp).map Prod.fst ∧
      "due_date" ∉ (createTaskData cp).map Prod.fst) ∧
    ("due_date" ∈ (createTaskData cp).map Prod.fst →
      optTruthy cp.due_string = false ∧ optTruthy cp.due_date = true) ∧
    (optTruthy up.due_string = true →
      "due_string" ∈ (updateTaskData up).map Prod.fst ∧
      "due_date" ∉ (updateTaskData up).map Prod.fst) ∧
    ("due_date" ∈ (updateTaskData up).map Prod.fst →
      optTruthy up.due_string = false ∧ optTruthy up.due_date = true) := by
  refine ⟨fun h => ⟨?_, ?_⟩, fun h => ?_, fun h => ⟨?_, ?_⟩, fun h => ?_⟩
  · rw [createTaskData_keys]
    simp [h]
  · rw [createTaskData_keys]
    simp [h]
  · rw [createTaskData_keys] at h
    simpa using h
  · rw [updateTaskData_keys]
    simp [h]
  · rw [updateTaskData_keys]
    simp [h]
  · rw [updateTaskData_keys] at h
    simpa using h

/-- C9 witness: with both `due_string` and `due_date` supplied non-empty on
task creation, the body omits `due_date`. -/
theorem C9_due_precedence_witness :
    "due_date" ∉ (createTaskData
      ⟨"buy milk", none, none, some "tomorrow", some "2024-01-15", none, none, none⟩).map Prod.fst :=
  ((C9_due_precedence
      ⟨"buy milk", none, none, some "tomorrow", some "2024-01-15", none, none, none⟩
      ⟨"1", none, none, none, none, none, none⟩).1 (by decide)).2

/-- C10: `todoist_update_task` treats its optional fields asymmetrically —
`description` and `labels` enter the body whenever not `None` (even empty),
while `content`, `due_string` and `due_date` are dropped when they are empty
strings — so supplying only an empty `content` yields the local
"nothing to update" reply, while supplying only an empty `description` issues
a request whose body is exactly that empty description. -/
theorem C10_update_asymmetry (p : UpdateTaskParams) :
    (p.description.isSome = true → "description" ∈ (updateTaskData p).map Prod.fst) ∧
    (p.labels.isSome = true → "labels" ∈ (updateTaskData p).map Prod.fst) ∧
    (p.content = some "" → "content" ∉ (updateTaskData p).map Prod.fst) ∧
    (p.due_string = some "" → "due_string" ∉ (updateTaskData p).map Prod.fst) ∧
    (p.due_date = some "" → "due_date" ∉ (updateTaskData p).map Prod.fst) ∧
    (∀ tid, todoist_update_task ⟨tid, some "", none, none, none, none, none⟩
      = .localReply "Error: No fields to update. Provide at least one field to change.") ∧
    (∀ tid, todoist_update_task ⟨tid, none, some "", none, none, none, none⟩
      = .request "POST" ("tasks/" ++ tid) [("description", JsonVal.str "")]) := by
  refine ⟨fun h => ?_, fun h => ?_, fun h => ?_, fun h => ?_, fun h => ?_,
    fun tid => rfl, fun tid => rfl⟩
  · rw [updateTaskData_keys]
    simp [h]
  · rw [updateTaskData_keys]
    simp [h]
  · rw [updateTaskData_keys]
    simp [h, optTruthy]
  · rw [updateTaskData_keys]
    simp [h, optTruthy]
  · rw [updateTaskData_keys]
    simp [h, optTruthy]

/-- C10 witness: supplying only an empty description puts the empty
description in the body. -/
theorem C10_update_asymmetry_witness :
    "description" ∈ (updateTaskData ⟨"9", none, some "", none, none, none, none⟩).map Prod.fst :=
  (C10_update_asymmetry ⟨"9", none, some "", none, none, none, none⟩).1 rfl

/-- C7: the `limit` parameter of list-tasks validates exactly the range 1–200
with default 50, the remote task list is sliced client-side to its first
`limit` elements before rendering in either output mode (so at most `limit`
tasks appear), and an empty remote result renders the fixed "nothing found"
sentence. -/
theorem C7_list_tasks_limit :
    (∀ n : Int, listTasksLimitOk n = true ↔ 1 ≤ n ∧ n ≤ 200) ∧
    listTasksLimitOk listTasksLimitDefault = true ∧
    listTasksLimitDefault = 50 ∧
    (∀ (dumps : List Task → String) (limit : Nat) (fmt : RespFormat),
      todoist_list_tasks dumps [] limit fmt = "No tasks found matching your criteria.") ∧
    (∀ (dumps : List Task → String) (tasks : List Task) (limit : Nat), tasks ≠ [] →
      todoist_list_tasks dumps tasks limit .json = dumps (tasks.take limit) ∧
      todoist_list_tasks dumps tasks limit .markdown
        = truncate_response (listTasksMarkdown (tasks.take limit)) (tasks.take limit).length ∧
      (tasks.take limit).length ≤ limit) := by
  refine ⟨?_, by decide, rfl, fun dumps limit fmt => rfl, ?_⟩
  · intro n
    simp [listTasksLimitOk]
  · intro dumps tasks limit h
    have hne : tasks.isEmpty = false := by
      simpa [List.isEmpty_iff] using h
    refine ⟨?_, ?_, ?_⟩
    · simp [todoist_list_tasks, hne]
    · simp [todoist_list_tasks, hne]
    · rw [List.length_take]
      exact min_le_left _ _

/-- C7 witness: a one-task result rendered with limit 1 goes through the
sliced markdown path. -/
theorem C7_list_tasks_limit_witness :
    todoist_list_tasks (fun _ => "") [⟨"2995104339", "Buy milk", some 4, none, [], none, none, none, none⟩] 1 .markdown
      = truncate_response
          (listTasksMarkdown (([⟨"2995104339", "Buy milk", some 4, none, [], none, none, none, none⟩] : List Task).take 1))
          (([⟨"2995104339", "Buy milk", some 4, none, [], none, none, none, none⟩] : List Task).take 1).length :=
  (C7_list_tasks_limit.2.2.2.2 (fun _ => "")
    [⟨"2995104339", "Buy milk", some 4, none, [], none, none, none, none⟩] 1
    (List.cons_ne_nil _ _)).2.1

/-- C8: in the list-tasks markdown view a description longer than 200
characters is cut to its first 200 characters plus an ellipsis (203 characters
total), one of at most 200 characters is shown unchanged, and the get-task
detail view always contains the full description unelided. -/
theorem C8_description_elision (d : String) :
    (200 < d.length →
      elideDescription d = pyslice d 200 ++ "..." ∧ (elideDescription d).length = 203) ∧
    (d.length ≤ 200 → elideDescription d = d) ∧
    (∀ t : Task, t.description = some d → d ≠ "" →
      ("- **Description**: " ++ elideDescription d) ∈ taskLines t ∧
      d ∈ getTaskLines t ∧
      d.data <:+: (todoist_get_task_markdown t).data) := by
  refine ⟨?_, ?_, ?_⟩
  · intro h
    have he : elideDescription d = pyslice d 200 ++ "..." := by
      simp [elideDescription, h]
    refine ⟨he, ?_⟩
    rw [he, String.length_append, pyslice_length]
    have hm : min 200 d.length = 200 := by omega
    rw [hm]
    rfl
  · intro h
    have h2 : ¬ (200 < d.length) := by omega
    simp [elideDescription, h2]
  · intro t hd hne
    have htr : optTruthy t.description = true := by
      rw [hd]
      exact optTruthy_some hne
    have h2 : d ∈ getTaskLines t := by
      simp [getTaskLines, hd, optTruthy_some hne]
    refine ⟨?_, h2, pyJoin_contains_of_mem "\n" d _ h2⟩
    simp [taskLines, hd, optTruthy_some hne]

/-- C8 witness: a 201-character description is elided to 203 characters, a
short one is unchanged. -/
theorem C8_description_elision_witness :
    (elideDescription ⟨List.replicate 201 'a'⟩).length = 203 ∧
    elideDescription "short" = "short" :=
  ⟨((C8_description_elision ⟨List.replicate 201 'a'⟩).1 (by
      have h : (String.mk (List.replicate 201 'a')).length = 201 := by
        rw [strlen_data]
        exact List.length_replicate 201 'a'
      omega)).2,
   (C8_description_elision "short").2.1 (by decide)⟩

theorem bigLabelName_len : bigLabelName.length = 25000 := by
  rw [strlen_data]
  show (List.replicate 25000 'a').length = 25000
  exact List.length_replicate 25000 'a'

theorem overLimitString_len : overLimitString.length = 25001 := by
  rw [strlen_data]
  show (List.replicate 25001 'b').length = 25001
  exact List.length_replicate 25001 'b'

/-- The length of the truncation notice: 69 fixed characters plus the decimal
digits of the item count. -/
theorem truncationNotice_length (c : Nat) :
    (truncationNotice c).length = 69 + (Nat.repr c).length := by
  show ("\n\n---\n**Response truncated** (" ++ toString c
      ++ " items). Use filters to narrow results.").length = _
  rw [String.length_append, String.length_append]
  have h1 : ("\n\n---\n**Response truncated** (" : String).length = 30 := rfl
  have h2 : (" items). Use filters to narrow results." : String).length = 39 := rfl
  have h3 : (toString c : String).length = (Nat.repr c).length := rfl
  rw [h1, h2, h3]
  omega

/-- C1 counterexample: a label whose rendered markdown is 25050 characters
long is returned by the list-labels markdown path unchanged — the output
exceeds 25,000 characters, so list-labels does not truncate. -/
theorem C1_counterexample :
    25000 < (todoist_list_labels (fun _ => "") [⟨"1", bigLabelName, none, false⟩] .markdown).length ∧
    (todoist_list_labels (fun _ => "") [⟨"1", bigLabelName, none, false⟩] .markdown).length = 25050 := by
  have h1 : labelLine ⟨"1", bigLabelName, none, false⟩
      = "- **" ++ bigLabelName ++ "**" ++ "" ++ " (ID: `" ++ "1" ++ "`, color: "
          ++ "default" ++ ")" := by
    simp [labelLine]
  have h2 : todoist_list_labels (fun _ => "") [⟨"1", bigLabelName, none, false⟩] .markdown
      = "# Todoist Labels" ++ "\n" ++ ("" ++ "\n" ++ labelLine ⟨"1", bigLabelName, none, false⟩) := by
    simp [todoist_list_labels, listLabelsMarkdown, pyJoin]
  have h3 : (todoist_list_labels (fun _ => "") [⟨"1", bigLabelName, none, false⟩] .markdown).length
      = 25050 := by
    rw [h2, h1]
    simp only [String.length_append, bigLabelName_len]
    decide
  refine ⟨?_, h3⟩
  rw [h3]
  decide

/-- C1 (amended): `_truncate_response` cuts a string exceeding 25,000
characters at 24,800 characters and appends the truncation notice naming the
item count, keeping the result within 25,000 characters (for any item count
of at most 131 decimal digits) and ending with the notice, while shorter
strings pass through unchanged; the markdown outputs of list-projects and
list-tasks go through `_truncate_response`, but list-labels returns its
markdown unchanged. -/
theorem C1_truncation (s : String) (c : Nat) (hc : (Nat.repr c).length ≤ 131) :
    (CHARACTER_LIMIT < s.length →
      truncate_response s c = pyslice s 24800 ++ truncationNotice c ∧
      (pyslice s 24800).length = 24800 ∧
      (truncate_response s c).length ≤ 25000 ∧
      (truncationNotice c).data <:+ (truncate_response s c).data) ∧
    (s.length ≤ CHARACTER_LIMIT → truncate_response s c = s) ∧
    (∀ (dumps : List Project → String) (projects : List Project), projects ≠ [] →
      todoist_list_projects dumps projects .markdown
        = truncate_response (listProjectsMarkdown projects) projects.length) ∧
    (∀ (dumps : List Task → String) (tasks : List Task) (limit : Nat), tasks ≠ [] →
      todoist_list_tasks dumps tasks limit .markdown
        = truncate_response (listTasksMarkdown (tasks.take limit)) (tasks.take limit).length) ∧
    (∀ (dumps : List Label → String) (labels : List Label), labels ≠ [] →
      todoist_list_labels dumps labels .markdown = listLabelsMarkdown labels) := by
  refine ⟨?_, ?_, ?_, ?_, ?_⟩
  · intro h
    have h25 : 25000 < s.length := h
    have he : truncate_response s c = pyslice s 24800 ++ truncationNotice c := by
      unfold truncate_response
      rw [if_pos h]
      rfl
    have hsl : (pyslice s 24800).length = 24800 := by
      rw [pyslice_length]
      omega
    refine ⟨he, hsl, ?_, ?_⟩
    · rw [he, String.length_append, hsl, truncationNotice_length]
      omega
    · rw [he, String.data_append]
      exact ⟨(pyslice s 24800).data, rfl⟩
  · intro h
    unfold truncate_response
    rw [if_neg (Nat.not_lt.mpr h)]
  · intro dumps projects h
    have hne : projects.isEmpty = false := by
      simpa [List.isEmpty_iff] using h
    simp [todoist_list_projects, hne]
  · intro dumps tasks limit h
    have hne : tasks.isEmpty = false := by
      simpa [List.isEmpty_iff] using h
    simp [todoist_list_tasks, hne]
  · intro dumps labels h
    have hne : labels.isEmpty = false := by
      simpa [List.isEmpty_iff] using h
    simp [todoist_list_labels, hne]

/-- C1 witness: a short string passes through unchanged, and a 25001-character
string is truncated back within the limit. -/
theorem C1_truncation_witness :
    truncate_response "short" 3 = "short" ∧
    (truncate_response overLimitString 3).length ≤ 25000 :=
  ⟨(C1_truncation "short" 3 (by decide)).2.1 (by decide),
   ((C1_truncation overLimitString 3 (by decide)).1 (by
      have h : overLimitString.length = 25001 := overLimitString_len
      have hCL : CHARACTER_LIMIT = 25000 := rfl
      omega)).2.2.1⟩

end TodoistMCP
